import Mathlib

/-!
Shallow embedding of `box_collection_optimizer.py` (class
`BoxCollectionOptimizer`): the box catalog, the visit ledger, the score
cache, the scoring functions (fill / urgency / equity / expected fill /
profitability) and the mutation operations (`mark_visit`, `add_box`,
`remove_box`, `update_box`) together with state save / load.

Modelling conventions:
* Python floats are modelled by `ℚ` (exact arithmetic over the same
  formulas); the one transcendental function, `np.exp`, is either kept
  abstract as a parameter `ex : ℚ → ℚ` (for the state machine) or
  modelled by `Real.exp` in a dedicated real-valued copy of the visited
  branch of the urgency score.
* `datetime` values are day counts in the single reference timezone
  (Europe/Zurich) plus an awareness flag; since every timestamp in the
  program denotes a Europe/Zurich wall-clock time, `replace(tzinfo=tz)`
  preserves the instant and timezone-aware subtraction is plain integer
  subtraction of the day counts.
* `pandas` dataframes become lists of records; row lookup by
  `df[df['n_boite'] == id]` followed by `.iloc[0]` is first-match lookup.
* Python dicts become association lists in insertion order.
* A Python exception escaping a function is modelled by `Option`
  (`none` = the call raises) or by a dedicated `error` constructor.
* `str(k)` / `int(k)` on dictionary keys during JSON save / load are
  mutually inverse on integers, so serialized keys are kept as `ℤ`.
* `isoformat` / `fromisoformat` are mutually inverse on timezone-aware
  datetimes, so a serialized timestamp is kept as the timestamp itself
  (always aware after saving).
-/

namespace BoxOpt

/-- An instant: integer day count in the reference timezone
(Europe/Zurich), plus whether the Python `datetime` carries `tzinfo`. -/
structure Timestamp where
  t : ℤ
  aware : Bool
deriving DecidableEq

/-- `dt.replace(tzinfo=Europe/Zurich)`: attach the reference timezone to a
(possibly naive) timestamp; the instant is unchanged because all stored
timestamps denote Europe/Zurich wall-clock times. -/
def mkAware (ts : Timestamp) : Timestamp := { ts with aware := true }

/-- One row of `self.df`: the static attributes of a box plus its weekly
fill observations. `volume_moyen = none` models NaN; `weeks` lists the
values of the columns `semaine_1 .. semaine_W` in order, `none` = NA. -/
structure BoxRecord where
  n_boite : ℤ
  adresse : String
  commune : String
  cp : String
  conteneur : String
  volume_moyen : Option ℚ
  weeks : List (Option ℚ)
deriving DecidableEq

/-- One entry of `self.visit_history[box_id]` (the dict built in
`mark_visit`): visit date, observed fill level (may be `None`), and the
expected fill computed at the moment of the visit. -/
structure VisitRecord where
  date : Timestamp
  fill_level : Option ℚ
  expected_fill : ℚ
deriving DecidableEq

/-- Result of `calculate_days_since_last_visit`:
* `never` — the id has no key in `self.last_visit`, the function returns
  Python `None` (the never-visited sentinel);
* `days d` — a normal integer day count;
* `error` — the key is present but maps to Python `None` (as left by
  `add_box`), so `last_visit.tzinfo` raises `AttributeError`. -/
inductive DaysResult where
  | never
  | days (d : ℤ)
  | error
deriving DecidableEq

/-- One value of `self._score_cache[box_id]` as written by
`_precompute_all_scores` / `_recalculate_box_scores`. -/
structure ScoreSnapshot where
  fill_score : ℚ
  urgency_score : ℚ
  equity_score : ℚ
  expected_fill : ℚ
  profitability_score : ℚ
  days_since_last_visit : DaysResult
deriving DecidableEq

/-- The mutable state of a `BoxCollectionOptimizer` instance: the catalog
dataframe `df`, the number of `semaine_` columns, the visit ledger
(`last_visit`, `visit_history`), and the score cache with its validity
flag.  `last_visit` values are `Option Timestamp` because `add_box`
stores a literal Python `None`. -/
structure OptState where
  df : List BoxRecord
  numWeeks : ℕ
  last_visit : List (ℤ × Option Timestamp)
  visit_history : List (ℤ × List VisitRecord)
  score_cache : List (ℤ × ScoreSnapshot)
  cache_valid : Bool
deriving DecidableEq

/-- Dictionary read `d[k]` / `k in d`: first (unique) matching key. -/
def dlookup {α : Type} (k : ℤ) : List (ℤ × α) → Option α
  | [] => none
  | p :: rest => if p.1 = k then some p.2 else dlookup k rest

/-- Dictionary write `d[k] = v`: overwrite in place, else append. -/
def dinsert {α : Type} (k : ℤ) (v : α) : List (ℤ × α) → List (ℤ × α)
  | [] => [(k, v)]
  | p :: rest => if p.1 = k then (k, v) :: rest else p :: dinsert k v rest

/-- Dictionary delete `del d[k]`. -/
def derase {α : Type} (k : ℤ) (l : List (ℤ × α)) : List (ℤ × α) :=
  l.filter (fun p => p.1 ≠ k)

/-- First catalog row with the given id:
`self.df[self.df['n_boite'] == box_id]` followed by `.iloc[0]`. -/
def findBox (id : ℤ) : List BoxRecord → Option BoxRecord
  | [] => none
  | b :: rest => if b.n_boite = id then some b else findBox id rest

/-- Catalog lookup for a box id. -/
def getBox (st : OptState) (id : ℤ) : Option BoxRecord :=
  findBox id st.df

/-- `box_id in self.df['n_boite'].values`. -/
def hasBox (st : OptState) (id : ℤ) : Bool :=
  (getBox st id).isSome

/-- Value of column `semaine_w` for a row (`none` = NA, or the column
does not exist, i.e. `w = 0` or `w` beyond the stored weeks). -/
def weekVal (b : BoxRecord) (w : ℕ) : Option ℚ :=
  if w = 0 then none else b.weeks.getD (w - 1) none

/-- Does any row have a non-NA value in column `semaine_w`
(`not self.df[week_col].isna().all()`)? -/
def anyWeekData (df : List BoxRecord) (w : ℕ) : Bool :=
  df.any (fun b => (weekVal b w).isSome)

/-- Scan `w, w-1, …, 1` for the last week with any data; fallback 1. -/
def globalLastWeek (df : List BoxRecord) : ℕ → ℕ
  | 0 => 1
  | w + 1 => if anyWeekData df (w + 1) then w + 1 else globalLastWeek df w

/-- `get_current_week`: the catalog-global most recent week having at
least one non-NA observation (fallback 1). -/
def get_current_week (st : OptState) : ℕ :=
  globalLastWeek st.df st.numWeeks

/-- Scan `w, w-1, …, 1` for this row's last non-NA week; fallback 1. -/
def boxLastWeek (b : BoxRecord) : ℕ → ℕ
  | 0 => 1
  | w + 1 => if (weekVal b (w + 1)).isSome then w + 1 else boxLastWeek b w

/-- `get_current_week_for_box`: the box's own most recent week with a
non-NA observation (fallback 1, also when the id is absent). -/
def get_current_week_for_box (st : OptState) (id : ℤ) : ℕ :=
  match getBox st id with
  | none => 1
  | some b => boxLastWeek b st.numWeeks

/-- Slope of the degree-1 least-squares fit of `np.polyfit` over the
points `(0, ys₀), (1, ys₁), …` (defined for `ys.length ≥ 2`). -/
def lsSlope (ys : List ℚ) : ℚ :=
  let n : ℚ := ys.length
  let xs : List ℚ := (List.range ys.length).map (fun i => (i : ℚ))
  let sx := xs.sum
  let sy := ys.sum
  let sxy := ((xs.zip ys).map (fun p => p.1 * p.2)).sum
  let sxx := (xs.map (fun x => x * x)).sum
  (n * sxy - sx * sy) / (n * sxx - sx * sx)

/-- `calculate_fill_score(box_id, current_week)`: mean of the up-to-4
most recent observed weeks ending at `current_week` (oldest→newest) plus
a trend bonus `min(slope * 0.5, 2.0)` when at least two observations are
available; absent box or no observations give `0`.  `cwOpt = none`
models the Python default `current_week=None`, resolved to the per-box
current week. -/
def calculate_fill_score (st : OptState) (id : ℤ) (cwOpt : Option ℕ) : ℚ :=
  match getBox st id with
  | none => 0
  | some b =>
    let cw := cwOpt.getD (get_current_week_for_box st id)
    let rw := min 4 cw
    let recent_scores := (List.range rw).filterMap (fun i => weekVal b (cw - rw + 1 + i))
    if recent_scores.isEmpty then 0
    else
      let avg := recent_scores.sum / (recent_scores.length : ℚ)
      let trend_bonus :=
        if 2 ≤ recent_scores.length then min (lsSlope recent_scores * (1 / 2)) 2 else 0
      max 0 (avg + trend_bonus)

/-- `calculate_days_since_last_visit(box_id)`; see `DaysResult`. -/
def calculate_days_since_last_visit (st : OptState) (now : ℤ) (id : ℤ) : DaysResult :=
  match dlookup id st.last_visit with
  | none => .never
  | some none => .error
  | some (some ts) => .days (now - ts.t)

/-- The visited branch of `calculate_urgency_score`: logistic curve
`10 / (1 + exp(-0.5 * (days - 7)))`, floored at 1.0 for `days ≤ 1`,
else at 2.0 for `days ≤ 3`, capped at 10.  `ex` abstracts `np.exp`. -/
def urgencyVisited (ex : ℚ → ℚ) (d : ℤ) : ℚ :=
  let u := 10 / (1 + ex (-(1 / 2) * ((d : ℚ) - 7)))
  let u2 := if d ≤ 1 then max u 1 else if d ≤ 3 then max u 2 else u
  min u2 10

/-- The never-visited branch of `calculate_urgency_score`: fall back to
`min(volume_moyen * 0.8, 8.0)` when the box exists and its average is
known (non-NaN) and positive, else `3.0`. -/
def urgencyNever (st : OptState) (id : ℤ) : ℚ :=
  match getBox st id with
  | some b =>
    match b.volume_moyen with
    | some avg_fill => if 0 < avg_fill then min (avg_fill * (8 / 10)) 8 else 3
    | none => 3
  | none => 3

/-- `calculate_urgency_score(box_id)`: never-visited boxes use the
average-fill proxy, visited boxes the logistic curve.  `none` = the call
raises (propagated `AttributeError` from the days computation). -/
def calculate_urgency_score (ex : ℚ → ℚ) (st : OptState) (now : ℤ) (id : ℤ) : Option ℚ :=
  match calculate_days_since_last_visit st now id with
  | .error => none
  | .never => some (urgencyNever st id)
  | .days d => some (urgencyVisited ex d)

/-- The visited branch of `calculate_equity_score`: the piecewise-linear
schedule over integer days since last visit. -/
def equityVisited (d : ℤ) : ℚ :=
  if d ≤ 0 then 0
  else if d ≤ 7 then (d : ℚ) * (1 / 2)
  else if d ≤ 30 then 7 / 2 + ((d : ℚ) - 7) * (1 / 5)
  else min (8 + ((d : ℚ) - 30) * (1 / 10)) 15

/-- `calculate_equity_score(box_id)`: `8.0` for never-visited boxes, the
piecewise schedule otherwise; `none` = the call raises. -/
def calculate_equity_score (st : OptState) (now : ℤ) (id : ℤ) : Option ℚ :=
  match calculate_days_since_last_visit st now id with
  | .error => none
  | .never => some 8
  | .days d => some (equityVisited d)

/-- `calculate_expected_fill(box_id)`:
`min(fill_score * 0.7 + volume_moyen * 0.3, 10)`, NaN average as 0. -/
def calculate_expected_fill (st : OptState) (id : ℤ) : ℚ :=
  let fill_score := calculate_fill_score st id none
  let avg_fill : ℚ :=
    match getBox st id with
    | some b => b.volume_moyen.getD 0
    | none => 0
  min (fill_score * (7 / 10) + avg_fill * (3 / 10)) 10

/-- The aggregation formula of `calculate_profitability_score`:
`min((ef/10 * 100) * (1.0 + (u/10) * 0.5) + (e/15) * 30, 130.0)`. -/
def profitabilityAgg (ef u e : ℚ) : ℚ :=
  min ((ef / 10 * 100) * (1 + u / 10 * (1 / 2)) + e / 15 * 30) 130

/-- The cache-miss path of `calculate_profitability_score`: recompute the
three components from the current state and aggregate; `none` = the call
raises. -/
def calculate_profitability_fresh (ex : ℚ → ℚ) (st : OptState) (now : ℤ) (id : ℤ) :
    Option ℚ :=
  let ef := calculate_expected_fill st id
  match calculate_urgency_score ex st now id with
  | none => none
  | some u =>
    match calculate_equity_score st now id with
    | none => none
    | some e => some (profitabilityAgg ef u e)

/-- `calculate_profitability_score(box_id)`: serve the cached snapshot
when `self._cache_valid and box_id in self._score_cache`, else
recompute. -/
def calculate_profitability_score (ex : ℚ → ℚ) (st : OptState) (now : ℤ) (id : ℤ) :
    Option ℚ :=
  if st.cache_valid then
    match dlookup id st.score_cache with
    | some snap => some snap.profitability_score
    | none => calculate_profitability_fresh ex st now id
  else calculate_profitability_fresh ex st now id

/-- The snapshot body shared by `_precompute_all_scores` (with the
catalog-global week) and `_recalculate_box_scores` (with the per-box
week): compute the five scores and the day count in program order;
`none` = one of the component calls raises. -/
def computeSnapshot (ex : ℚ → ℚ) (st : OptState) (now : ℤ) (id : ℤ) (cw : Option ℕ) :
    Option ScoreSnapshot :=
  let fs := calculate_fill_score st id cw
  match calculate_urgency_score ex st now id with
  | none => none
  | some us =>
    match calculate_equity_score st now id with
    | none => none
    | some es =>
      let ef := calculate_expected_fill st id
      match calculate_profitability_score ex st now id with
      | none => none
      | some ps =>
        some ⟨fs, us, es, ef, ps, calculate_days_since_last_visit st now id⟩

/-- The row loop of `_precompute_all_scores`: fold over the dataframe,
storing each box's snapshot (computed with the catalog-global current
week `cw`) into the accumulating cache. -/
def precomputeLoop (ex : ℚ → ℚ) (st : OptState) (now : ℤ) (cw : ℕ) :
    List BoxRecord → List (ℤ × ScoreSnapshot) → Option (List (ℤ × ScoreSnapshot))
  | [], acc => some acc
  | b :: rest, acc =>
    match computeSnapshot ex { st with score_cache := acc } now b.n_boite (some cw) with
    | none => none
    | some snap => precomputeLoop ex st now cw rest (dinsert b.n_boite snap acc)

/-- `_precompute_all_scores` (the constructor's pre-warm pass): compute
the catalog-global current week once, snapshot every box with it, then
set `_cache_valid = True`. -/
def precompute (ex : ℚ → ℚ) (st : OptState) (now : ℤ) : Option OptState :=
  match precomputeLoop ex st now (get_current_week st) st.df st.score_cache with
  | none => none
  | some cache => some { st with score_cache := cache, cache_valid := true }

/-- `invalidate_cache`: clear the flag and drop the whole bundle map. -/
def invalidate_cache (st : OptState) : OptState :=
  { st with cache_valid := false, score_cache := [] }

/-- `_recalculate_box_scores(box_id)`: snapshot one box with its per-box
current week and store it in the cache. -/
def recalculate_box_scores (ex : ℚ → ℚ) (st : OptState) (now : ℤ) (id : ℤ) :
    Option OptState :=
  match computeSnapshot ex st now id (some (get_current_week_for_box st id)) with
  | none => none
  | some snap => some { st with score_cache := dinsert id snap st.score_cache }

/-- The ledger updates of `mark_visit(box_id, fill_level)`: capture the
expected fill on the pre-visit state, stamp `last_visit[box_id]` with
the current aware time, initialise the history list when the key is
absent, and append the visit record. -/
def mark_visit_ledger (st : OptState) (now : ℤ) (fill_level : Option ℚ)
    (id : ℤ) : OptState :=
  let ef := calculate_expected_fill st id
  let st1 : OptState := { st with last_visit := dinsert id (some ⟨now, true⟩) st.last_visit }
  let st2 : OptState :=
    if (dlookup id st1.visit_history).isSome then st1
    else { st1 with visit_history := dinsert id [] st1.visit_history }
  let rec0 : VisitRecord := ⟨⟨now, true⟩, fill_level, ef⟩
  { st2 with visit_history :=
      dinsert id ((dlookup id st2.visit_history).getD [] ++ [rec0]) st2.visit_history }

/-- `mark_visit(box_id, fill_level)`: apply the ledger updates, then
invalidate the cache and immediately recompute this box's snapshot.
(The CSV audit-log append is external I/O and not part of the engine
state.)  `none` = the call raises. -/
def mark_visit (ex : ℚ → ℚ) (st : OptState) (now : ℤ) (fill_level : Option ℚ)
    (id : ℤ) : Option OptState :=
  recalculate_box_scores ex (invalidate_cache (mark_visit_ledger st now fill_level id)) now id

/-- The validated payload of `add_box` (all required fields present and
already coerced to their types by `int(...)` / `str(...)` /
`float(...)`). -/
structure NewBoxData where
  n_boite : ℤ
  adresse : String
  commune : String
  cp : String
  conteneur : String
  volume_moyen : ℚ
deriving DecidableEq

/-- `add_box(box_data)`: reject a duplicate id (`False`, state
unchanged); otherwise append a new row with all-NA weeks, initialise
`last_visit[id] = None` and `visit_history[id] = []` when the keys are
absent, and invalidate the cache.  Returns the Python boolean and the
resulting state. -/
def add_box (st : OptState) (nb : NewBoxData) : Bool × OptState :=
  if hasBox st nb.n_boite then (false, st)
  else
    let row : BoxRecord :=
      ⟨nb.n_boite, nb.adresse, nb.commune, nb.cp, nb.conteneur, some nb.volume_moyen,
        List.replicate st.numWeeks none⟩
    let lv :=
      if (dlookup nb.n_boite st.last_visit).isSome then st.last_visit
      else dinsert nb.n_boite none st.last_visit
    let vh :=
      if (dlookup nb.n_boite st.visit_history).isSome then st.visit_history
      else dinsert nb.n_boite [] st.visit_history
    (true,
      { st with
          df := st.df ++ [row],
          last_visit := lv,
          visit_history := vh,
          cache_valid := false,
          score_cache := [] })

/-- `remove_box(box_id)`: reject an unknown id (`False`, state
unchanged); otherwise drop the row, the ledger entries, and this box's
cache entry.  The validity flag is left untouched (the function does not
call `invalidate_cache`). -/
def remove_box (st : OptState) (id : ℤ) : Bool × OptState :=
  if hasBox st id then
    (true,
      { st with
          df := st.df.filter (fun b => b.n_boite ≠ id),
          last_visit := derase id st.last_visit,
          visit_history := derase id st.visit_history,
          score_cache := derase id st.score_cache })
  else (false, st)

/-- The update payload of `update_box`: each allowed field optionally
present (`volume_moyen` may itself be set to NaN). -/
structure BoxUpdate where
  adresse : Option String
  commune : Option String
  cp : Option String
  conteneur : Option String
  volume_moyen : Option (Option ℚ)
deriving DecidableEq

/-- Apply the present fields of an update to a row. -/
def applyUpdate (u : BoxUpdate) (b : BoxRecord) : BoxRecord :=
  { b with
    adresse := u.adresse.getD b.adresse,
    commune := u.commune.getD b.commune,
    cp := u.cp.getD b.cp,
    conteneur := u.conteneur.getD b.conteneur,
    volume_moyen := u.volume_moyen.getD b.volume_moyen }

/-- `update_box(box_id, box_data)`: reject an unknown id; otherwise set
the provided allowed fields on every matching row and invalidate the
cache. -/
def update_box (st : OptState) (id : ℤ) (u : BoxUpdate) : Bool × OptState :=
  if hasBox st id then
    (true,
      { st with
          df := st.df.map (fun b => if b.n_boite = id then applyUpdate u b else b),
          cache_valid := false,
          score_cache := [] })
  else (false, st)

/-- Python `round` (banker's rounding, half-to-even) on a rational. -/
def rhe (q : ℚ) : ℤ :=
  if q - (⌊q⌋ : ℚ) = 1 / 2 then (if ⌊q⌋ % 2 = 0 then ⌊q⌋ else ⌊q⌋ + 1) else round q

/-- Python `round(x, 1)`. -/
def round1 (q : ℚ) : ℚ := ((rhe (10 * q) : ℤ) : ℚ) / 10

/-- The `recent_history` block of `get_box_details`: columns
`semaine_{W - i}` for `i = 0 .. 7`, keeping non-NA values and skipping
nonexistent columns (`W - i ≤ 0`). -/
def recentHistory (W : ℕ) (b : BoxRecord) : List (ℕ × ℚ) :=
  (List.range 8).filterMap (fun i =>
    if i < W then (weekVal b (W - i)).map (fun v => (W - i, v)) else none)

/-- The record returned by `get_box_details` for a present box. -/
structure BoxDetails where
  box_id : ℤ
  address : String
  commune : String
  postal_code : String
  container_type : String
  average_fill : ℚ
  current_score : ℚ
  expected_fill : ℚ
  days_since_last_visit : DaysResult
  recent_history : List (ℕ × ℚ)
  visit_history : List VisitRecord
deriving DecidableEq

/-- Outcome of `get_box_details`: Python `None` for an unknown id, the
details record otherwise, or a raised exception. -/
inductive DetailsResult where
  | notFound
  | found (d : BoxDetails)
  | error
deriving DecidableEq

/-- `get_box_details(box_id)`: `None` when the id is absent from the
catalog; otherwise build the details record (profitability first, then
the day count, as in the source dict literal — either raising turns the
whole call into an exception). -/
def get_box_details (ex : ℚ → ℚ) (st : OptState) (now : ℤ) (id : ℤ) : DetailsResult :=
  match getBox st id with
  | none => .notFound
  | some b =>
    match calculate_profitability_score ex st now id with
    | none => .error
    | some score =>
      match calculate_days_since_last_visit st now id with
      | .error => .error
      | dr =>
        .found
          ⟨id, b.adresse, b.commune, b.cp, b.conteneur,
            (b.volume_moyen.map round1).getD 0,
            round1 score,
            round1 (calculate_expected_fill st id),
            dr,
            recentHistory st.numWeeks b,
            (dlookup id st.visit_history).getD []⟩

/-- The serialized form written by `save_state`: `last_visit` keys as
integers (`str`/`int` round-trip), values as timezone-aware timestamps
(`isoformat`/`fromisoformat` round-trip), and the visit history as-is
(its records JSON-round-trip unchanged). -/
structure SavedState where
  last_visit : List (ℤ × Timestamp)
  visit_history : List (ℤ × List VisitRecord)
deriving DecidableEq

/-- Serialize the `last_visit` dict: an aware value is written as-is, a
naive value gets the reference timezone attached; a Python `None` value
(as left by `add_box`) raises `AttributeError`. -/
def saveLV : List (ℤ × Option Timestamp) → Option (List (ℤ × Timestamp))
  | [] => some []
  | (_, none) :: _ => none
  | (k, some ts) :: rest =>
    match saveLV rest with
    | none => none
    | some r => some ((k, if ts.aware then ts else mkAware ts) :: r)

/-- `save_state`: build the serialized state; `none` = building the
dictionary raises (the file write itself is external I/O). -/
def save_state (st : OptState) : Option SavedState :=
  match saveLV st.last_visit with
  | none => none
  | some lv => some ⟨lv, st.visit_history⟩

/-- Deserialize the `last_visit` dict: parse each timestamp and attach
the reference timezone when it is naive. -/
def loadLV (l : List (ℤ × Timestamp)) : List (ℤ × Option Timestamp) :=
  l.map (fun p => (p.1, some (if p.2.aware then p.2 else mkAware p.2)))

/-- `load_state` on a successfully read file: replace the ledger with
the deserialized one (all other state is untouched). -/
def load_state (st : OptState) (s : SavedState) : OptState :=
  { st with last_visit := loadLV s.last_visit, visit_history := s.visit_history }

/-- Real-valued model of the visited branch of `calculate_urgency_score`
(lines 253–261), with `np.exp` as `Real.exp`:
`min(floors(10 / (1 + exp(-0.5 * (days - 7)))), 10)`. -/
noncomputable def urgencyVisitedR (d : ℤ) : ℝ :=
  let u := 10 / (1 + Real.exp (-(1 / 2) * ((d : ℝ) - 7)))
  let u2 := if d ≤ 1 then max u 1 else if d ≤ 3 then max u 2 else u
  min u2 10

/-- Real-valued model of the whole `calculate_urgency_score` (the
never-visited fallback is the same rational computation, cast to `ℝ`). -/
noncomputable def calculate_urgency_scoreR (st : OptState) (now : ℤ) (id : ℤ) :
    Option ℝ :=
  match calculate_days_since_last_visit st now id with
  | .error => none
  | .never => some ((urgencyNever st id : ℚ) : ℝ)
  | .days d => some (urgencyVisitedR d)

/-- A concrete stand-in for `np.exp` used in closed evaluations (its
value is irrelevant to the evaluated branches). -/
def exC : ℚ → ℚ := fun _ => 1

/-- A small concrete catalog row. -/
def boxC (id : ℤ) (vm : Option ℚ) (ws : List (Option ℚ)) : BoxRecord :=
  ⟨id, "a", "c", "p", "t", vm, ws⟩

/-- Base concrete state: one box (id 1), one week of data, empty ledger
and cache. -/
def baseState : OptState :=
  ⟨[boxC 1 (some 5) [some 4]], 1, [], [], [], false⟩

/-- Concrete state for the cache-invalidation counterexample: two boxes,
fully warmed valid cache. -/
def snapC : ScoreSnapshot := ⟨0, 0, 0, 0, 0, .never⟩

def stC2 : OptState :=
  ⟨[boxC 1 (some 5) [some 4], boxC 2 (some 5) [some 4]], 1, [], [],
    [(1, snapC), (2, snapC)], true⟩

/-- Concrete catalog showing the pre-warm week discrepancy: 6 week
columns; box 1 has data only in week 6, box 2 only in weeks 1–4. -/
def stC3 : OptState :=
  ⟨[boxC 1 (some 5) [none, none, none, none, none, some 5],
    boxC 2 (some 5) [some 1, some 2, some 3, some 4, none, none]],
    6, [], [], [], false⟩

/-- Concrete new-box payload (id 2). -/
def nb2 : NewBoxData := ⟨2, "b", "c", "p", "t", 5⟩

/-- Concrete state with box 1 visited at day 100 (aware timestamp). -/
def stV : OptState :=
  ⟨[boxC 1 (some 5) [some 4]], 1, [(1, some ⟨100, true⟩)], [(1, [])], [], false⟩

/-- Concrete ledger for the save/load round-trip: one naive and one
aware timestamp plus a nonempty visit history. -/
def stC9 : OptState :=
  ⟨[boxC 1 (some 5) [some 4]], 1, [(1, some ⟨100, false⟩), (2, some ⟨50, true⟩)],
    [(1, [⟨⟨100, true⟩, some 3, 2⟩])], [], false⟩

/-! ### Helper lemmas -/

theorem dlookup_dinsert_self {α : Type} (k : ℤ) (v : α) (l : List (ℤ × α)) :
    dlookup k (dinsert k v l) = some v := by
  induction l with
  | nil => simp [dinsert, dlookup]
  | cons p rest ih =>
    by_cases h : p.1 = k
    · simp [dinsert, h, dlookup]
    · simp [dinsert, h, dlookup, ih]

theorem dlookup_dinsert_ne {α : Type} (k k2 : ℤ) (v : α) (l : List (ℤ × α))
    (h : k2 ≠ k) : dlookup k (dinsert k2 v l) = dlookup k l := by
  induction l with
  | nil => simp [dinsert, dlookup, h]
  | cons p rest ih =>
    by_cases hp : p.1 = k2
    · simp [dinsert, hp, dlookup, h]
    · by_cases hk : p.1 = k
      · simp [dinsert, hp, dlookup, hk, Ne.symm h]
      · simp [dinsert, hp, dlookup, hk, ih]

theorem dlookup_map_value {α β : Type} (f : α → β) (k : ℤ) (l : List (ℤ × α)) :
    dlookup k (l.map (fun p => (p.1, f p.2))) = (dlookup k l).map f := by
  induction l with
  | nil => rfl
  | cons p rest ih =>
    by_cases h : p.1 = k
    · simp [dlookup, h]
    · simp [dlookup, h, ih]

theorem urgency_isSome_of_not_error (ex : ℚ → ℚ) (st : OptState) (now : ℤ) (id : ℤ)
    (h : calculate_days_since_last_visit st now id ≠ .error) :
    ∃ u, calculate_urgency_score ex st now id = some u := by
  unfold calculate_urgency_score
  cases hd : calculate_days_since_last_visit st now id with
  | never => exact ⟨_, rfl⟩
  | days d => exact ⟨_, rfl⟩
  | error => exact absurd hd h

theorem equity_isSome_of_not_error (st : OptState) (now : ℤ) (id : ℤ)
    (h : calculate_days_since_last_visit st now id ≠ .error) :
    ∃ e, calculate_equity_score st now id = some e := by
  unfold calculate_equity_score
  cases hd : calculate_days_since_last_visit st now id with
  | never => exact ⟨_, rfl⟩
  | days d => exact ⟨_, rfl⟩
  | error => exact absurd hd h

theorem fresh_isSome_of_not_error (ex : ℚ → ℚ) (st : OptState) (now : ℤ) (id : ℤ)
    (h : calculate_days_since_last_visit st now id ≠ .error) :
    ∃ p, calculate_profitability_fresh ex st now id = some p := by
  obtain ⟨u, hu⟩ := urgency_isSome_of_not_error ex st now id h
  obtain ⟨e, he⟩ := equity_isSome_of_not_error st now id h
  refine ⟨profitabilityAgg (calculate_expected_fill st id) u e, ?_⟩
  unfold calculate_profitability_fresh
  rw [hu, he]

theorem prof_isSome_of_not_error (ex : ℚ → ℚ) (st : OptState) (now : ℤ) (id : ℤ)
    (h : calculate_days_since_last_visit st now id ≠ .error) :
    ∃ p, calculate_profitability_score ex st now id = some p := by
  obtain ⟨p, hp⟩ := fresh_isSome_of_not_error ex st now id h
  unfold calculate_profitability_score
  cases hc : st.cache_valid
  · exact ⟨p, by simp [hp]⟩
  · cases hl : dlookup id st.score_cache with
    | some snap => exact ⟨snap.profitability_score, by simp [hl]⟩
    | none => exact ⟨p, by simp [hl, hp]⟩

theorem computeSnapshot_isSome (ex : ℚ → ℚ) (st : OptState) (now : ℤ) (id : ℤ)
    (cw : Option ℕ) (h : calculate_days_since_last_visit st now id ≠ .error) :
    ∃ snap, computeSnapshot ex st now id cw = some snap := by
  obtain ⟨u, hu⟩ := urgency_isSome_of_not_error ex st now id h
  obtain ⟨e, he⟩ := equity_isSome_of_not_error st now id h
  obtain ⟨p, hp⟩ := prof_isSome_of_not_error ex st now id h
  exact ⟨_, by unfold computeSnapshot; rw [hu, he, hp]⟩

theorem recalculate_some (ex : ℚ → ℚ) (st : OptState) (now : ℤ) (id : ℤ)
    (h : calculate_days_since_last_visit st now id ≠ .error) :
    ∃ snap, recalculate_box_scores ex st now id =
      some { st with score_cache := dinsert id snap st.score_cache } := by
  obtain ⟨snap, hs⟩ := computeSnapshot_isSome ex st now id _ h
  exact ⟨snap, by unfold recalculate_box_scores; rw [hs]⟩

theorem fill_score_cache_indep (st : OptState) (c : List (ℤ × ScoreSnapshot))
    (id : ℤ) (cw : Option ℕ) :
    calculate_fill_score { st with score_cache := c } id cw =
      calculate_fill_score st id cw := rfl

theorem computeSnapshot_fill (ex : ℚ → ℚ) (st : OptState) (now : ℤ) (id : ℤ)
    (cw : Option ℕ) (snap : ScoreSnapshot)
    (h : computeSnapshot ex st now id cw = some snap) :
    snap.fill_score = calculate_fill_score st id cw := by
  unfold computeSnapshot at h
  rcases hu : calculate_urgency_score ex st now id with _ | u <;> rw [hu] at h
  · cases h
  rcases he : calculate_equity_score st now id with _ | e <;> rw [he] at h
  · cases h
  rcases hp : calculate_profitability_score ex st now id with _ | p <;> rw [hp] at h
  · cases h
  cases h
  rfl

theorem expected_fill_absent (st : OptState) (id : ℤ) (h : getBox st id = none) :
    calculate_expected_fill st id = 0 := by
  unfold calculate_expected_fill calculate_fill_score
  rw [h]
  norm_num

theorem mark_visit_ledger_spec (st : OptState) (now : ℤ) (fl : Option ℚ) (id : ℤ) :
    (mark_visit_ledger st now fl id).df = st.df ∧
    (mark_visit_ledger st now fl id).numWeeks = st.numWeeks ∧
    (mark_visit_ledger st now fl id).last_visit =
      dinsert id (some ⟨now, true⟩) st.last_visit ∧
    (mark_visit_ledger st now fl id).score_cache = st.score_cache ∧
    (mark_visit_ledger st now fl id).cache_valid = st.cache_valid ∧
    dlookup id (mark_visit_ledger st now fl id).visit_history =
      some ((dlookup id st.visit_history).getD [] ++
        [⟨⟨now, true⟩, fl, calculate_expected_fill st id⟩]) := by
  unfold mark_visit_ledger
  cases hvh : dlookup id st.visit_history with
  | none => simp [hvh, dlookup_dinsert_self]
  | some l => simp [hvh, dlookup_dinsert_self]

theorem mark_visit_spec (ex : ℚ → ℚ) (st : OptState) (now : ℤ) (fl : Option ℚ)
    (id : ℤ) :
    ∃ st2, mark_visit ex st now fl id = some st2 ∧
      st2.df = st.df ∧
      dlookup id st2.last_visit = some (some ⟨now, true⟩) ∧
      dlookup id st2.visit_history =
        some ((dlookup id st.visit_history).getD [] ++
          [⟨⟨now, true⟩, fl, calculate_expected_fill st id⟩]) ∧
      st2.cache_valid = false ∧
      (dlookup id st2.score_cache).isSome := by
  obtain ⟨hdf, hnw, hlv, hsc, hcv, hvh⟩ := mark_visit_ledger_spec st now fl id
  have hdays : calculate_days_since_last_visit
      (invalidate_cache (mark_visit_ledger st now fl id)) now id = .days (now - now) := by
    unfold calculate_days_since_last_visit invalidate_cache
    show (match dlookup id (mark_visit_ledger st now fl id).last_visit with
      | none => DaysResult.never
      | some none => DaysResult.error
      | some (some ts) => DaysResult.days (now - ts.t)) = _
    rw [hlv, dlookup_dinsert_self]
  obtain ⟨snap, hrec⟩ := recalculate_some ex
    (invalidate_cache (mark_visit_ledger st now fl id)) now id
    (by rw [hdays]; intro hh; cases hh)
  refine ⟨_, hrec, ?_, ?_, ?_, rfl, ?_⟩
  · show (invalidate_cache (mark_visit_ledger st now fl id)).df = st.df
    exact hdf
  · show dlookup id (invalidate_cache (mark_visit_ledger st now fl id)).last_visit = _
    show dlookup id (mark_visit_ledger st now fl id).last_visit = _
    rw [hlv, dlookup_dinsert_self]
  · show dlookup id (invalidate_cache (mark_visit_ledger st now fl id)).visit_history = _
    exact hvh
  · show (dlookup id (dinsert id snap
      (invalidate_cache (mark_visit_ledger st now fl id)).score_cache)).isSome
    rw [dlookup_dinsert_self]
    rfl

theorem saveLV_roundtrip (l : List (ℤ × Option Timestamp))
    (h : ∀ p ∈ l, p.2.isSome) :
    ∃ r, saveLV l = some r ∧
      loadLV r = l.map (fun p => (p.1, p.2.map mkAware)) := by
  induction l with
  | nil => exact ⟨[], rfl, rfl⟩
  | cons p rest ih =>
    obtain ⟨k, v⟩ := p
    cases v with
    | none =>
      have := h (k, none) (List.mem_cons_self _ _)
      simp at this
    | some ts =>
      obtain ⟨r, hr, hl⟩ := ih (fun q hq => h q (List.mem_cons_of_mem _ hq))
      refine ⟨(k, if ts.aware then ts else mkAware ts) :: r, ?_, ?_⟩
      · unfold saveLV
        rw [hr]
      · obtain ⟨t, a⟩ := ts
        cases a
        · simp [loadLV, mkAware] at hl ⊢
          exact hl
        · simp [loadLV, mkAware] at hl ⊢
          exact hl

/-! ### Claim theorems -/

/-- Claim C1, counterexample: box id 7 is absent from the concrete
catalog `baseState`, yet `mark_visit` succeeds silently instead of
reporting a not-found outcome, and it mutates the visit ledger:
`last_visit[7]` goes from absent to the visit timestamp. -/
theorem C1_mark_visit_counterexample :
    getBox baseState 7 = none ∧
    dlookup 7 baseState.last_visit = none ∧
    ∃ st2, mark_visit exC baseState 100 none 7 = some st2 ∧
      dlookup 7 st2.last_visit = some (some ⟨100, true⟩) := by
  refine ⟨by decide, rfl, ?_⟩
  obtain ⟨st2, h1, _, h3, _, _, _⟩ := mark_visit_spec exC baseState 100 none 7
  exact ⟨st2, h1, h3⟩

/-- Claim C1, amended: for every box id absent from the catalog,
`mark_visit` does not crash but also does not report a not-found
outcome: it succeeds and mutates the ledger and cache — the catalog
itself stays unchanged, `last_visit[id]` is set to the visit time, a
visit record with expected fill 0 is appended to the history, the cache
validity flag is cleared, and a fresh snapshot for the id is inserted
into the emptied cache.  (Only the external CSV audit log skips absent
ids.) -/
theorem C1_mark_visit_amended (ex : ℚ → ℚ) (st : OptState) (now : ℤ)
    (fl : Option ℚ) (id : ℤ) (h : getBox st id = none) :
    ∃ st2, mark_visit ex st now fl id = some st2 ∧
      st2.df = st.df ∧
      dlookup id st2.last_visit = some (some ⟨now, true⟩) ∧
      dlookup id st2.visit_history =
        some ((dlookup id st.visit_history).getD [] ++ [⟨⟨now, true⟩, fl, 0⟩]) ∧
      st2.cache_valid = false ∧
      (dlookup id st2.score_cache).isSome := by
  obtain ⟨st2, h1, h2, h3, h4, h5, h6⟩ := mark_visit_spec ex st now fl id
  rw [expected_fill_absent st id h] at h4
  exact ⟨st2, h1, h2, h3, h4, h5, h6⟩

/-- Witness for C1: the amended statement instantiated on the concrete
state `baseState` and the absent id 7. -/
theorem C1_mark_visit_amended_witness :
    ∃ st2, mark_visit exC baseState 100 none 7 = some st2 ∧
      st2.df = baseState.df ∧
      dlookup 7 st2.last_visit = some (some ⟨100, true⟩) ∧
      dlookup 7 st2.visit_history =
        some ((dlookup 7 baseState.visit_history).getD [] ++ [⟨⟨100, true⟩, none, 0⟩]) ∧
      st2.cache_valid = false ∧
      (dlookup 7 st2.score_cache).isSome :=
  C1_mark_visit_amended exC baseState 100 none 7 (by decide)

/-- Claim C2, counterexample: on the concrete warmed state `stC2`
(validity flag set, two cached snapshots), `remove_box 1` succeeds, yet
the cache is not in the INVALID state afterwards: the validity flag is
still set and box 2's cached bundle survives. -/
theorem C2_remove_box_counterexample :
    (remove_box stC2 1).1 = true ∧
    (remove_box stC2 1).2.cache_valid = true ∧
    dlookup 2 (remove_box stC2 1).2.score_cache = some snapC := by
  decide

/-- Claim C2, amended: after every successful `add_box` or `update_box`
the score cache is INVALID (validity flag false, whole bundle map
dropped); a successful `remove_box`, however, leaves the validity flag
unchanged and merely deletes the removed box's own cache entry, keeping
every other cached bundle. -/
theorem C2_cache_after_mutation :
    (∀ st nb, (add_box st nb).1 = true →
      (add_box st nb).2.cache_valid = false ∧ (add_box st nb).2.score_cache = []) ∧
    (∀ st id u, (update_box st id u).1 = true →
      (update_box st id u).2.cache_valid = false ∧
      (update_box st id u).2.score_cache = []) ∧
    (∀ st id, (remove_box st id).1 = true →
      (remove_box st id).2.cache_valid = st.cache_valid ∧
      (remove_box st id).2.score_cache = derase id st.score_cache) := by
  refine ⟨fun st nb hs => ?_, fun st id u hs => ?_, fun st id hs => ?_⟩
  · unfold add_box at hs ⊢
    cases hb : hasBox st nb.n_boite
    · simp [hb]
    · simp [hb] at hs
  · unfold update_box at hs ⊢
    cases hb : hasBox st id
    · simp [hb] at hs
    · simp [hb]
  · unfold remove_box at hs ⊢
    cases hb : hasBox st id
    · simp [hb] at hs
    · simp [hb]

/-- Witness for C2: the amended statement instantiated on the concrete
inputs (`add_box` on `baseState`, `update_box` and `remove_box` on
`stC2`). -/
theorem C2_cache_after_mutation_witness :
    ((add_box baseState nb2).2.cache_valid = false ∧
      (add_box baseState nb2).2.score_cache = []) ∧
    ((update_box stC2 1 ⟨some "x", none, none, none, none⟩).2.cache_valid = false ∧
      (update_box stC2 1 ⟨some "x", none, none, none, none⟩).2.score_cache = []) ∧
    ((remove_box stC2 1).2.cache_valid = stC2.cache_valid ∧
      (remove_box stC2 1).2.score_cache = derase 1 stC2.score_cache) :=
  ⟨C2_cache_after_mutation.1 baseState nb2 (by decide),
   C2_cache_after_mutation.2.1 stC2 1 ⟨some "x", none, none, none, none⟩ (by decide),
   C2_cache_after_mutation.2.2 stC2 1 (by decide)⟩

/-- Claim C3 (code bug): on the concrete catalog `stC3` (six week
columns; box 1 has data only in week 6, box 2 only in weeks 1–4) the
constructor's pre-warm pass stores `fill_score = 4` for box 2, computed
with the catalog-global current week 6 (window weeks 3–6, observations
3 and 4), while `calculate_fill_score` with box 2's own per-box current
week (4; window weeks 1–4, observations 1,2,3,4) yields `3`: the
pre-warm pass and the per-box computation are not equivalent. -/
theorem C3_prewarm_week_divergence :
    get_current_week stC3 = 6 ∧
    get_current_week_for_box stC3 2 = 4 ∧
    (∃ stp, precompute exC stC3 100 = some stp ∧
      ∃ snap, dlookup 2 stp.score_cache = some snap ∧ snap.fill_score = 4) ∧
    calculate_fill_score stC3 2 (some (get_current_week_for_box stC3 2)) = 3 ∧
    (4 : ℚ) ≠ 3 := by
  have hnev1 : calculate_days_since_last_visit
      (⟨stC3.df, stC3.numWeeks, stC3.last_visit, stC3.visit_history, [],
        stC3.cache_valid⟩ : OptState) 100 1 = .never := rfl
  obtain ⟨s1, hs1⟩ := computeSnapshot_isSome exC
    ⟨stC3.df, stC3.numWeeks, stC3.last_visit, stC3.visit_history, [],
      stC3.cache_valid⟩ 100 1 (some 6) (by simp [hnev1])
  have hnev2 : calculate_days_since_last_visit
      (⟨stC3.df, stC3.numWeeks, stC3.last_visit, stC3.visit_history, dinsert 1 s1 [],
        stC3.cache_valid⟩ : OptState) 100 2 = .never := rfl
  obtain ⟨s2, hs2⟩ := computeSnapshot_isSome exC
    ⟨stC3.df, stC3.numWeeks, stC3.last_visit, stC3.visit_history, dinsert 1 s1 [],
      stC3.cache_valid⟩ 100 2 (some 6) (by simp [hnev2])
  have hloop : precomputeLoop exC stC3 100 6 stC3.df [] =
      some (dinsert 2 s2 (dinsert 1 s1 [])) := by
    show precomputeLoop exC stC3 100 6
      [boxC 1 (some 5) [none, none, none, none, none, some 5],
       boxC 2 (some 5) [some 1, some 2, some 3, some 4, none, none]] [] = _
    unfold precomputeLoop
    rw [show (boxC 1 (some 5) [none, none, none, none, none, some 5]).n_boite = 1
      from rfl]
    rw [hs1]
    unfold precomputeLoop
    rw [show (boxC 2 (some 5) [some 1, some 2, some 3, some 4, none, none]).n_boite = 2
      from rfl]
    rw [hs2]
    rfl
  have hpre : precompute exC stC3 100 =
      some { stC3 with
        score_cache := dinsert 2 s2 (dinsert 1 s1 []),
        cache_valid := true } := by
    unfold precompute
    rw [show get_current_week stC3 = 6 from by decide]
    rw [show stC3.score_cache = ([] : List (ℤ × ScoreSnapshot)) from rfl]
    rw [hloop]
  have hfill2 : s2.fill_score = calculate_fill_score stC3 2 (some 6) :=
    computeSnapshot_fill exC _ 100 2 (some 6) s2 hs2
  refine ⟨by decide, by decide, ⟨_, hpre, s2, ?_, ?_⟩, ?_, by norm_num⟩
  · show dlookup 2 (dinsert 2 s2 (dinsert 1 s1 [])) = some s2
    rw [dlookup_dinsert_self]
  · rw [hfill2]
    norm_num [calculate_fill_score, getBox, findBox, stC3, boxC, weekVal, lsSlope,
      List.range_succ, List.range_zero, List.filterMap_cons, List.zip_cons_cons,
      List.sum_cons, List.sum_nil]
  · rw [show get_current_week_for_box stC3 2 = 4 from by decide]
    norm_num [calculate_fill_score, getBox, findBox, stC3, boxC, weekVal, lsSlope,
      List.range_succ, List.range_zero, List.filterMap_cons, List.zip_cons_cons,
      List.sum_cons, List.sum_nil]

/-- Claim C4 (code bug): `add_box` succeeds for the fresh id 2 (average
fill 5) on the concrete base catalog; the box is present and has no
visit on record, so equity should be 8.0 and urgency
min(5 × 0.8, 8.0) = 4.0 — but both score computations raise instead:
`add_box` stored a literal Python `None` in `last_visit`, so
`calculate_days_since_last_visit` evaluates `None.tzinfo`
(`AttributeError`) instead of returning the never-visited sentinel its
own docstring promises. -/
theorem C4_added_box_scores_raise :
    (add_box baseState nb2).1 = true ∧
    getBox (add_box baseState nb2).2 2 ≠ none ∧
    calculate_days_since_last_visit (add_box baseState nb2).2 100 2 = .error ∧
    calculate_urgency_score exC (add_box baseState nb2).2 100 2 = none ∧
    calculate_equity_score (add_box baseState nb2).2 100 2 = none ∧
    min ((5 : ℚ) * (8 / 10)) 8 = 4 := by
  refine ⟨by decide, by decide, by decide, by decide, by decide, by norm_num⟩

/-- Claim C5 (code bug): after the successful mutation
`add_box baseState nb2` the next profitability read for the affected box
(the freshly added id 2) does not return a value computed from the
post-mutation state — it raises: the validity flag is false, so the read
goes to the fresh recompute, whose urgency component crashes on the
`None` stored in `last_visit` by `add_box`. -/
theorem C5_read_after_add_box_raises :
    (add_box baseState nb2).1 = true ∧
    (add_box baseState nb2).2.cache_valid = false ∧
    calculate_profitability_score exC (add_box baseState nb2).2 100 2 = none := by
  decide

/-- Claim C6, counterexample: for the concrete visited box (last visit
day 100, read at day 130, so d = 30) the equity score is 8.1, produced
by the middle branch `3.5 + (30 − 7) × 0.2`, while the `d > 30` branch
formula evaluated at d = 30 gives 8.0: the adjacent branch formulas do
not agree at the breakpoint 30. -/
theorem C6_equity_breakpoint_30 :
    calculate_equity_score stV 130 1 = some (81 / 10) ∧
    min ((8 : ℚ) + (((30 : ℤ) : ℚ) - 30) * (1 / 10)) 15 = 8 ∧
    (81 / 10 : ℚ) ≠ 8 := by
  refine ⟨?_, by norm_num, by norm_num⟩
  have hd : calculate_days_since_last_visit stV 130 1 = .days 30 := by decide
  unfold calculate_equity_score
  rw [hd]
  norm_num [equityVisited]

/-- Claim C6, amended: for every visited box with integer
days-since-last-visit d the equity score equals the stated piecewise
function (0 for d ≤ 0; d × 0.5 for 0 < d ≤ 7; 3.5 + (d − 7) × 0.2 for
7 < d ≤ 30; min(8.0 + (d − 30) × 0.1, 15.0) for d > 30).  The adjacent
branch formulas agree at d = 7 (both give 3.5), but at d = 30 the middle
branch gives 8.1 while the d > 30 formula gives 8.0. -/
theorem C6_equity_piecewise (st : OptState) (now : ℤ) (id : ℤ) (d : ℤ)
    (h : calculate_days_since_last_visit st now id = .days d) :
    calculate_equity_score st now id = some (equityVisited d) ∧
    (d ≤ 0 → equityVisited d = 0) ∧
    (0 < d → d ≤ 7 → equityVisited d = (d : ℚ) * (1 / 2)) ∧
    (7 < d → d ≤ 30 → equityVisited d = 7 / 2 + ((d : ℚ) - 7) * (1 / 5)) ∧
    (30 < d → equityVisited d = min (8 + ((d : ℚ) - 30) * (1 / 10)) 15) ∧
    (7 : ℚ) * (1 / 2) = 7 / 2 + (((7 : ℤ) : ℚ) - 7) * (1 / 5) ∧
    equityVisited 30 = 81 / 10 ∧
    min (8 + (((30 : ℤ) : ℚ) - 30) * (1 / 10)) 15 = 8 := by
  refine ⟨by unfold calculate_equity_score; rw [h], ?_, ?_, ?_, ?_, by norm_num,
    by norm_num [equityVisited], by norm_num⟩
  · intro h1
    unfold equityVisited
    rw [if_pos h1]
  · intro h1 h2
    unfold equityVisited
    rw [if_neg (by omega), if_pos h2]
  · intro h1 h2
    unfold equityVisited
    rw [if_neg (by omega), if_neg (by omega), if_pos h2]
  · intro h1
    unfold equityVisited
    rw [if_neg (by omega), if_neg (by omega), if_neg (by omega)]

/-- Witness for C6: the amended statement instantiated on the concrete
state `stV` read 30 days after the visit. -/
theorem C6_equity_piecewise_witness :
    calculate_equity_score stV 130 1 = some (equityVisited 30) ∧
    equityVisited 30 = 81 / 10 :=
  ⟨(C6_equity_piecewise stV 130 1 30 (by decide)).1,
   (C6_equity_piecewise stV 130 1 30 (by decide)).2.2.2.2.2.2.1⟩

/-- Claim C7, counterexample: at d = 1 day since the last visit the
urgency score is exactly 1.0 — the logistic value 10/(1 + exp(3)) lies
below the 1.0 floor, and the `elif` structure means the 2.0 floor is
never applied for d ≤ 1 — so the score is less than 2.0 even though
d = 1 ≤ 3, contradicting "at least 2.0 when d ≤ 3". -/
theorem C7_urgency_floor_at_one :
    calculate_urgency_scoreR stV 101 1 = some (urgencyVisitedR 1) ∧
    urgencyVisitedR 1 = 1 ∧ ¬(2 ≤ urgencyVisitedR 1) := by
  have hexp : (9 : ℝ) ≤ Real.exp 3 := by
    have h1 : (2.7182818283 : ℝ) < Real.exp 1 := Real.exp_one_gt_d9
    have h3 : Real.exp 3 = Real.exp 1 * Real.exp 1 * Real.exp 1 := by
      rw [← Real.exp_add, ← Real.exp_add]
      norm_num
    nlinarith [Real.exp_pos 1]
  have hu : 10 / (1 + Real.exp (-(1 / 2) * (((1 : ℤ) : ℝ) - 7))) ≤ 1 := by
    rw [show (-(1 / 2) * (((1 : ℤ) : ℝ) - 7)) = 3 by norm_num]
    rw [div_le_one (by positivity)]
    linarith
  have hval : urgencyVisitedR 1 = 1 := by
    simp only [urgencyVisitedR]
    rw [if_pos (by norm_num : (1 : ℤ) ≤ 1)]
    rw [max_eq_right hu]
    exact min_eq_left (by norm_num)
  refine ⟨?_, hval, by rw [hval]; norm_num⟩
  have hd : calculate_days_since_last_visit stV 101 1 = .days 1 := by decide
  unfold calculate_urgency_scoreR
  rw [hd]

/-- Claim C7, amended: for every visited box with integer
days-since-last-visit d, the urgency score equals the logistic value
10/(1 + exp(−0.5 × (d − 7))) capped at 10, with a 1.0 floor when d ≤ 1
and a 2.0 floor when 1 < d ≤ 3 (the two floors are mutually exclusive:
the 2.0 floor does not cover d ≤ 1); the final result lies in [0, 10]. -/
theorem C7_urgency_spec (st : OptState) (now : ℤ) (id : ℤ) (d : ℤ)
    (h : calculate_days_since_last_visit st now id = .days d) :
    calculate_urgency_scoreR st now id = some (urgencyVisitedR d) ∧
    (d ≤ 1 → urgencyVisitedR d =
      min (max (10 / (1 + Real.exp (-(1 / 2) * ((d : ℝ) - 7)))) 1) 10) ∧
    (1 < d → d ≤ 3 → urgencyVisitedR d =
      min (max (10 / (1 + Real.exp (-(1 / 2) * ((d : ℝ) - 7)))) 2) 10) ∧
    (3 < d → urgencyVisitedR d =
      min (10 / (1 + Real.exp (-(1 / 2) * ((d : ℝ) - 7)))) 10) ∧
    (d ≤ 1 → 1 ≤ urgencyVisitedR d) ∧
    (1 < d → d ≤ 3 → 2 ≤ urgencyVisitedR d) ∧
    0 ≤ urgencyVisitedR d ∧ urgencyVisitedR d ≤ 10 := by
  have hu0 : 0 < 10 / (1 + Real.exp (-(1 / 2) * ((d : ℝ) - 7))) := by positivity
  refine ⟨by unfold calculate_urgency_scoreR; rw [h], ?_, ?_, ?_, ?_, ?_, ?_, ?_⟩
  · intro h1
    simp only [urgencyVisitedR]
    rw [if_pos h1]
  · intro h1 h2
    simp only [urgencyVisitedR]
    rw [if_neg (by omega), if_pos h2]
  · intro h1
    simp only [urgencyVisitedR]
    rw [if_neg (by omega), if_neg (by omega)]
  · intro h1
    simp only [urgencyVisitedR]
    rw [if_pos h1]
    exact le_min (le_max_right _ 1) (by norm_num)
  · intro h1 h2
    simp only [urgencyVisitedR]
    rw [if_neg (by omega), if_pos h2]
    exact le_min (le_max_right _ 2) (by norm_num)
  · simp only [urgencyVisitedR]
    split_ifs with h1 h2
    · exact le_min (le_trans (by norm_num) (le_max_right _ 1)) (by norm_num)
    · exact le_min (le_trans (by norm_num) (le_max_right _ 2)) (by norm_num)
    · exact le_min hu0.le (by norm_num)
  · simp only [urgencyVisitedR]
    split_ifs <;> exact min_le_right _ _

/-- Witness for C7: the amended statement instantiated on the concrete
state `stV` read 5 days after the visit. -/
theorem C7_urgency_spec_witness :
    calculate_urgency_scoreR stV 105 1 = some (urgencyVisitedR 5) ∧
    0 ≤ urgencyVisitedR 5 ∧ urgencyVisitedR 5 ≤ 10 :=
  ⟨(C7_urgency_spec stV 105 1 5 (by decide)).1,
   (C7_urgency_spec stV 105 1 5 (by decide)).2.2.2.2.2.2.1,
   (C7_urgency_spec stV 105 1 5 (by decide)).2.2.2.2.2.2.2⟩

/-- Claim C8: whenever the three freshly computed components lie in
their documented ranges (expected fill in [0,10], urgency in [0,10],
equity in [0,15]), the fresh profitability score equals
min((ef/10 × 100) × (1.0 + (u/10) × 0.5) + (e/15) × 30, 130) and the
aggregate lies in [0, 130]. -/
theorem C8_profitability_formula (ex : ℚ → ℚ) (st : OptState) (now : ℤ) (id : ℤ)
    (ef u e : ℚ)
    (hef : calculate_expected_fill st id = ef)
    (hu : calculate_urgency_score ex st now id = some u)
    (he : calculate_equity_score st now id = some e)
    (hef0 : 0 ≤ ef) (hef1 : ef ≤ 10) (hu0 : 0 ≤ u) (hu1 : u ≤ 10)
    (he0 : 0 ≤ e) (he1 : e ≤ 15) :
    calculate_profitability_fresh ex st now id =
      some (min ((ef / 10 * 100) * (1 + u / 10 * (1 / 2)) + e / 15 * 30) 130) ∧
    0 ≤ profitabilityAgg ef u e ∧ profitabilityAgg ef u e ≤ 130 := by
  refine ⟨?_, ?_, ?_⟩
  · unfold calculate_profitability_fresh
    rw [hu, he, hef]
    rfl
  · unfold profitabilityAgg
    refine le_min ?_ (by norm_num)
    nlinarith
  · unfold profitabilityAgg
    exact min_le_right _ _

/-- Witness for C8: the formula theorem instantiated on the concrete
never-visited box 1 of `baseState` (expected fill 4.3, urgency 4,
equity 8). -/
theorem C8_profitability_formula_witness :
    calculate_profitability_fresh exC baseState 100 1 =
      some (min (((43 / 10 : ℚ) / 10 * 100) * (1 + (4 : ℚ) / 10 * (1 / 2)) +
        (8 : ℚ) / 15 * 30) 130) ∧
    0 ≤ profitabilityAgg (43 / 10) 4 8 ∧ profitabilityAgg (43 / 10) 4 8 ≤ 130 :=
  C8_profitability_formula exC baseState 100 1 (43 / 10) 4 8
    (by norm_num [calculate_expected_fill, calculate_fill_score, getBox, findBox,
      baseState, boxC, get_current_week_for_box, boxLastWeek, weekVal, lsSlope,
      List.range_succ, List.range_zero, List.filterMap_cons, List.sum_cons,
      List.sum_nil])
    (by
      have hd : calculate_days_since_last_visit baseState 100 1 = .never := rfl
      unfold calculate_urgency_score
      rw [hd]
      norm_num [urgencyNever, getBox, findBox, baseState, boxC])
    (by
      have hd : calculate_days_since_last_visit baseState 100 1 = .never := rfl
      unfold calculate_equity_score
      rw [hd])
    (by norm_num) (by norm_num) (by norm_num) (by norm_num) (by norm_num)
    (by norm_num)

/-- Claim C9: saving the visit ledger with `save_state` and loading it
back with `load_state` reproduces, for every box id, the same last-visit
instant (with the reference timezone attached to previously naive
timestamps — the instant component `t` is unchanged) and the identical
visit-history lists, provided every stored last-visit value is an actual
timestamp (a Python `None` left by `add_box` would make the save itself
raise before writing). -/
theorem C9_save_load_roundtrip (st stBase : OptState)
    (h : ∀ p ∈ st.last_visit, p.2.isSome) :
    ∃ s, save_state st = some s ∧
      (load_state stBase s).visit_history = st.visit_history ∧
      (∀ id, dlookup id (load_state stBase s).last_visit =
        (dlookup id st.last_visit).map (Option.map mkAware)) ∧
      ∀ ts : Timestamp, (mkAware ts).t = ts.t := by
  obtain ⟨r, hr, hl⟩ := saveLV_roundtrip st.last_visit h
  refine ⟨⟨r, st.visit_history⟩, ?_, rfl, ?_, fun ts => rfl⟩
  · unfold save_state
    rw [hr]
  · intro id
    show dlookup id (loadLV r) = _
    rw [hl]
    exact dlookup_map_value (Option.map mkAware) id st.last_visit

/-- Witness for C9: the round-trip instantiated on the concrete ledger
`stC9` (one naive timestamp, one aware timestamp, one nonempty visit
history). -/
theorem C9_save_load_roundtrip_witness :
    ∃ s, save_state stC9 = some s ∧
      (load_state baseState s).visit_history = stC9.visit_history ∧
      (∀ id, dlookup id (load_state baseState s).last_visit =
        (dlookup id stC9.last_visit).map (Option.map mkAware)) ∧
      ∀ ts : Timestamp, (mkAware ts).t = ts.t :=
  C9_save_load_roundtrip stC9 baseState (by decide)

/-- Claim C10: for a box id absent from both the catalog and the visit
ledger, the scoring operations are total and return the fixed defaults:
fill score 0.0, urgency 3.0, equity 8.0, and the detail lookup reports
not-found instead of raising. -/
theorem C10_absent_box_defaults (ex : ℚ → ℚ) (st : OptState) (now : ℤ) (id : ℤ)
    (h1 : getBox st id = none) (h2 : dlookup id st.last_visit = none) :
    calculate_fill_score st id none = 0 ∧
    calculate_urgency_score ex st now id = some 3 ∧
    calculate_equity_score st now id = some 8 ∧
    get_box_details ex st now id = .notFound := by
  have hd : calculate_days_since_last_visit st now id = .never := by
    unfold calculate_days_since_last_visit
    rw [h2]
  refine ⟨?_, ?_, ?_, ?_⟩
  · unfold calculate_fill_score
    rw [h1]
  · unfold calculate_urgency_score
    rw [hd]
    unfold urgencyNever
    rw [h1]
  · unfold calculate_equity_score
    rw [hd]
  · unfold get_box_details
    rw [h1]

/-- Witness for C10: the defaults instantiated on `baseState` and the
absent id 7. -/
theorem C10_absent_box_defaults_witness :
    calculate_fill_score baseState 7 none = 0 ∧
    calculate_urgency_score exC baseState 100 7 = some 3 ∧
    calculate_equity_score baseState 100 7 = some 8 ∧
    get_box_details exC baseState 100 7 = .notFound :=
  C10_absent_box_defaults exC baseState 100 7 (by decide) rfl

end BoxOpt
